import Mathlib

/-
Shallow embedding of the mcp-toolbox protocol gateway.

The embedding follows src/server/http_server.py (the Push Transport Binding:
POST /message request surface and the GET /sse observer surface),
src/server/registry.py (the capability registry) and the capability bodies in
src/server/tools/ that the claims exercise (text_tools.sha256_hash,
network_tools.is_port_open, network_tools.validate_url).

Conventions of the embedding:
* Decoded JSON / Python structured values are the inductive `Json`.
* A Python function that may raise is a Lean function into `Except Exc _`;
  `Exc.valueError` is the one exception class the dispatch path matches
  specially (`except ValueError`), every other class is `runtimeError`
  (raised by the gateway itself) or `otherError` (any other class).
* The mutable global `active_connections : list[asyncio.Queue]` is threaded
  explicitly as a `List (List Json)`: one list of already-enqueued events per
  open observer connection; `queue.put` is appending to that list.
* Each handler additionally returns the list of capability-function
  invocations it performed (a ghost trace used to state that an operation
  invokes no capability function).
-/

/-- Python/JSON structured values exchanged by the gateway. -/
inductive Json where
  | null
  | bool (b : Bool)
  | num (n : Int)
  | str (s : String)
  | arr (elems : List Json)
  | obj (fields : List (String × Json))

/-- `d[k]` lookup on a Python dict (first binding wins; decoded JSON dicts
have unique keys). Non-dict values have no keys. -/
def Json.get? : Json → String → Option Json
  | .obj fields, k => fields.lookup k
  | _, _ => none

/-- Python `d.get(k, default)`. -/
def Json.getD (j : Json) (k : String) (d : Json) : Json := (j.get? k).getD d

/-- The Python exception values the dispatch path distinguishes. `msg` is
`str(e)`. `except ValueError` matches exactly `valueError`; the gateway's own
`raise RuntimeError(...)` produces `runtimeError`; any other exception class
raised by a capability is `otherError`. -/
inductive Exc where
  | valueError (msg : String)
  | runtimeError (msg : String)
  | otherError (msg : String)
deriving DecidableEq

/-- `str(e)`: the message carried by the exception. -/
def Exc.text : Exc → String
  | .valueError m => m
  | .runtimeError m => m
  | .otherError m => m

/-- Python `str()` of a scalar decoded-JSON value, as interpolated into the
handlers' f-strings (`f"Tool '{tool_name}' not found"`); `none` is a missing
key, i.e. Python `None`. Lists and dicts never reach these f-strings: they
are unhashable, so the preceding `in AVAILABLE_TOOLS` test raises first. -/
def pyStr : Option Json → String
  | none => "None"
  | some .null => "None"
  | some (.bool true) => "True"
  | some (.bool false) => "False"
  | some (.num n) => toString n
  | some (.str s) => s
  | some (.arr _) => "None"
  | some (.obj _) => "None"

/-- Hex digit characters, lowercase. -/
def hexDigit (n : Nat) : Char :=
  (("0123456789abcdef".data).getD n '0')

/-- `n` rendered as exactly four lowercase hex digits (for \uXXXX escapes). -/
def toHex4 (n : Nat) : String :=
  String.mk [hexDigit (n / 4096 % 16), hexDigit (n / 256 % 16),
             hexDigit (n / 16 % 16), hexDigit (n % 16)]

/-- `json.dumps` escaping of one character (`ensure_ascii=True`, the default):
the two mandatory escapes, the C0 shorthands, `\uXXXX` for other control or
non-ASCII characters (a surrogate pair above the BMP), else the character. -/
def jsonEscapeChar (c : Char) : String :=
  if c = '"' then "\\\""
  else if c = '\\' then "\\\\"
  else if c = '\n' then "\\n"
  else if c = '\t' then "\\t"
  else if c = '\r' then "\\r"
  else if c.toNat = 8 then "\\b"
  else if c.toNat = 12 then "\\f"
  else if c.toNat < 32 then "\\u" ++ toHex4 c.toNat
  else if c.toNat < 127 then String.singleton c
  else if c.toNat < 65536 then "\\u" ++ toHex4 c.toNat
  else
    let v := c.toNat - 65536
    "\\u" ++ toHex4 (55296 + v / 1024) ++ "\\u" ++ toHex4 (56320 + v % 1024)

/-- A JSON string literal as `json.dumps` renders it. -/
def dumpsStr (s : String) : String :=
  "\"" ++ String.join (s.data.map jsonEscapeChar) ++ "\""

mutual

/-- `json.dumps(v)` with the default separators `", "` and `": "`. -/
def Json.dumps : Json → String
  | .null => "null"
  | .bool true => "true"
  | .bool false => "false"
  | .num n => toString n
  | .str s => dumpsStr s
  | .arr es => "[" ++ dumpsElems es ++ "]"
  | .obj fs => "\x7b" ++ dumpsFields fs ++ "\x7d"

/-- Array elements joined by `", "`. -/
def dumpsElems : List Json → String
  | [] => ""
  | [e] => e.dumps
  | e :: e2 :: rest => e.dumps ++ ", " ++ dumpsElems (e2 :: rest)

/-- Object members joined by `", "`, key and value joined by `": "`. -/
def dumpsFields : List (String × Json) → String
  | [] => ""
  | [(k, v)] => dumpsStr k ++ ": " ++ v.dumps
  | (k, v) :: f2 :: rest => dumpsStr k ++ ": " ++ v.dumps ++ ", " ++ dumpsFields (f2 :: rest)

end

/-- `2 * lvl` spaces of indentation. -/
def pad (lvl : Nat) : String := String.mk (List.replicate (2 * lvl) ' ')

mutual

/-- `json.dumps(v, indent=2)` at nesting level `lvl`: containers open a line,
members are indented one level deeper and separated by `",\n"`, the closing
bracket returns to the enclosing indentation; empty containers stay inline. -/
def Json.dumpsIndent (lvl : Nat) : Json → String
  | .arr [] => "[]"
  | .arr (e :: es) =>
      "[\n" ++ dumpsIndentElems (lvl + 1) (e :: es) ++ "\n" ++ pad lvl ++ "]"
  | .obj [] => "\x7b\x7d"
  | .obj (f :: fs) =>
      "\x7b\n" ++ dumpsIndentFields (lvl + 1) (f :: fs) ++ "\n" ++ pad lvl ++ "\x7d"
  | .null => "null"
  | .bool true => "true"
  | .bool false => "false"
  | .num n => toString n
  | .str s => dumpsStr s

/-- Indented array elements joined by `",\n"`. -/
def dumpsIndentElems (lvl : Nat) : List Json → String
  | [] => ""
  | [e] => pad lvl ++ e.dumpsIndent lvl
  | e :: e2 :: rest =>
      pad lvl ++ e.dumpsIndent lvl ++ ",\n" ++ dumpsIndentElems lvl (e2 :: rest)

/-- Indented object members joined by `",\n"`. -/
def dumpsIndentFields (lvl : Nat) : List (String × Json) → String
  | [] => ""
  | [(k, v)] => pad lvl ++ dumpsStr k ++ ": " ++ v.dumpsIndent lvl
  | (k, v) :: f2 :: rest =>
      pad lvl ++ dumpsStr k ++ ": " ++ v.dumpsIndent lvl ++ ",\n" ++
        dumpsIndentFields lvl (f2 :: rest)

end

/-- `json.dumps(v, indent=2)` as used for tool-result content text. -/
def Json.dumps2 (j : Json) : String := j.dumpsIndent 0

/-- One entry of `AVAILABLE_TOOLS` (src/server/registry.py): the metadata the
registry exposes for a capability. -/
structure ToolInfo where
  name : String
  description : String
  inputSchema : Json

/-- `AVAILABLE_TOOLS` (src/server/registry.py lines 17-113), in source
insertion order, with the source's descriptions and JSON-Schema documents. -/
def AVAILABLE_TOOLS : List ToolInfo :=
  [ { name := "yaml_to_json",
      description := "Convert YAML string to JSON format. Useful for configuration file transformations and data interchange.",
      inputSchema := .obj
        [("type", .str "object"),
         ("properties", .obj
           [("yaml", .obj
             [("type", .str "string"),
              ("description", .str "YAML string to convert to JSON")])]),
         ("required", .arr [.str "yaml"])] },
    { name := "json_to_yaml",
      description := "Convert JSON string to YAML format. YAML is more human-readable and commonly used in configuration files.",
      inputSchema := .obj
        [("type", .str "object"),
         ("properties", .obj
           [("json", .obj
             [("type", .str "string"),
              ("description", .str "JSON string to convert to YAML")])]),
         ("required", .arr [.str "json"])] },
    { name := "base64_encode",
      description := "Encode text string to base64 format. Used for representing binary data in ASCII format.",
      inputSchema := .obj
        [("type", .str "object"),
         ("properties", .obj
           [("text", .obj
             [("type", .str "string"),
              ("description", .str "Plain text to encode")])]),
         ("required", .arr [.str "text"])] },
    { name := "sha256_hash",
      description := "Compute SHA256 cryptographic hash of text. Produces a 64-character hexadecimal hash string.",
      inputSchema := .obj
        [("type", .str "object"),
         ("properties", .obj
           [("text", .obj
             [("type", .str "string"),
              ("description", .str "Text to hash")])]),
         ("required", .arr [.str "text"])] },
    { name := "is_port_open",
      description := "Check if a TCP port is open on a host. Useful for service availability and network diagnostics. Times out after 3 seconds.",
      inputSchema := .obj
        [("type", .str "object"),
         ("properties", .obj
           [("host", .obj
             [("type", .str "string"),
              ("description", .str "Hostname or IP address to check")]),
            ("port", .obj
             [("type", .str "integer"),
              ("description", .str "Port number (1-65535)"),
              ("minimum", .num 1),
              ("maximum", .num 65535)])]),
         ("required", .arr [.str "host", .str "port"])] },
    { name := "validate_url",
      description := "Validate URL format and structure. Checks for protocol, domain, and invalid characters.",
      inputSchema := .obj
        [("type", .str "object"),
         ("properties", .obj
           [("url", .obj
             [("type", .str "string"),
              ("description", .str "URL to validate")])]),
         ("required", .arr [.str "url"])] } ]

/-- The keys of the `AVAILABLE_TOOLS` dict, in insertion order: what the
membership test `tool_name not in AVAILABLE_TOOLS` consults. -/
def registryNames : List String := AVAILABLE_TOOLS.map (·.name)

/-- `handle_list_tools` (http_server.py lines 269-289): one
`{name, description, inputSchema}` descriptor per registry entry, in
registry iteration (= insertion) order, wrapped as `{"tools": [...]}`. -/
def handle_list_tools : Json :=
  .obj [("tools", .arr (AVAILABLE_TOOLS.map (fun t =>
    .obj [("name", .str t.name),
          ("description", .str t.description),
          ("inputSchema", t.inputSchema)])))]

/-- `create_error_response` (http_server.py lines 358-377). -/
def create_error_response (request_id : Json) (code : Int) (message : String) : Json :=
  .obj [("jsonrpc", .str "2.0"),
        ("error", .obj [("code", .num code), ("message", .str message)]),
        ("id", request_id)]

/-- The successful JSON-RPC response envelope built at http_server.py
lines 247-251. -/
def rpcResponse (result : Json) (request_id : Json) : Json :=
  .obj [("jsonrpc", .str "2.0"), ("result", result), ("id", request_id)]

/-- The broadcast notification enqueued per observer connection at
http_server.py lines 332-337. -/
def toolResultEvent (tool : String) (result : Json) : Json :=
  .obj [("type", .str "tool_result"), ("tool", .str tool), ("result", result)]

/-- The `tools/call` success result built at http_server.py lines 339-346:
the result dict serialized with `json.dumps(result, indent=2)` and wrapped as
text content. -/
def callToolResult (result : Json) : Json :=
  .obj [("content", .arr [.obj [("type", .str "text"), ("text", .str result.dumps2)]])]

/-- `handle_call_tool` (http_server.py lines 292-355), parametric in the
behaviour `invoke` of the registered capability functions
(`invoke name args` is `tool_func(**arguments)` for the tool named `name`,
its exception-or-result behaviour left abstract).

Returns the updated observer queues, the ghost trace of capability
invocations performed, and the normal return value or the exception that
escapes the handler. Steps, as in the source:
1. `tool_name = params.get("name")`, `arguments = params.get("arguments", {})`;
2. `if tool_name not in AVAILABLE_TOOLS: raise ValueError(f"Tool '...' not found")`
   (an unhashable `tool_name` — a list or dict — makes this test itself raise
   `TypeError`, modelled as `otherError`; no claim depends on its text);
3. invoke the tool; on normal return, append one `tool_result` event to every
   open observer queue and return the wrapped content;
4. `except ValueError: raise` — the validation error escapes unchanged;
5. `except Exception as e: raise RuntimeError(f"Internal error: {str(e)}")`. -/
def handle_call_tool (invoke : String → Json → Except Exc Json)
    (conns : List (List Json)) (params : Json) :
    List (List Json) × List String × Except Exc Json :=
  match params.get? "name" with
  | some (.arr _) => (conns, [], .error (.otherError "unhashable type: 'list'"))
  | some (.obj _) => (conns, [], .error (.otherError "unhashable type: 'dict'"))
  | some (.str s) =>
      if s ∈ registryNames then
        let args := params.getD "arguments" (.obj [])
        match invoke s args with
        | .ok result =>
            (conns.map (fun q => q ++ [toolResultEvent s result]), [s],
             .ok (callToolResult result))
        | .error (.valueError m) => (conns, [s], .error (.valueError m))
        | .error e => (conns, [s], .error (.runtimeError ("Internal error: " ++ e.text)))
      else
        (conns, [], .error (.valueError ("Tool '" ++ s ++ "' not found")))
  | t => (conns, [], .error (.valueError ("Tool '" ++ pyStr t ++ "' not found")))

/-- `message_endpoint` (http_server.py lines 179-266): the POST /message
request surface. `body` is the outcome of `await request.json()`: `.error ()`
when the body is not decodable as JSON (`json.JSONDecodeError`), otherwise
the decoded top-level dict. Routing:
* `"tools/list"` → `handle_list_tools`, wrapped in the JSON-RPC envelope;
* `"tools/call"` → `handle_call_tool`; an exception escaping it is caught by
  the endpoint's `except Exception` and turned into a -32603 response whose
  message is `str(e)`;
* any other method → -32601 `Method '<m>' not found`, without dispatch;
* undecodable body → -32700 `Invalid JSON` with `id=null`, without dispatch. -/
def message_endpoint (invoke : String → Json → Except Exc Json)
    (conns : List (List Json)) (body : Except Unit (List (String × Json))) :
    List (List Json) × List String × Json :=
  match body with
  | .error _ => (conns, [], create_error_response .null (-32700) "Invalid JSON")
  | .ok fields =>
      let b : Json := .obj fields
      let params := b.getD "params" (.obj [])
      let request_id := b.getD "id" .null
      match b.get? "method" with
      | some (.str "tools/list") =>
          (conns, [], rpcResponse handle_list_tools request_id)
      | some (.str "tools/call") =>
          match handle_call_tool invoke conns params with
          | (conns2, calls, .ok result) =>
              (conns2, calls, rpcResponse result request_id)
          | (conns2, calls, .error e) =>
              (conns2, calls, create_error_response request_id (-32603) e.text)
      | m =>
          (conns, [], create_error_response request_id (-32601)
            ("Method '" ++ pyStr m ++ "' not found"))

/-- A well-formed `tools/call` request body with a string tool name,
arguments object `args` and correlation id `idv`, as decoded from JSON. -/
def callBody (name : String) (args : Json) (idv : Json) : List (String × Json) :=
  [("jsonrpc", .str "2.0"), ("method", .str "tools/call"),
   ("params", .obj [("name", .str name), ("arguments", args)]), ("id", idv)]

/-- One iteration's outcome of `await asyncio.wait_for(queue.get(), timeout=30.0)`
in `sse_generator` (http_server.py lines 105-120): either the 30-time-unit
timeout elapsed with the queue still empty (`timeout`), or a queue item
arrived — a broadcast message (`msg`) or the `None` shutdown signal
(`shutdown`). Real time is abstracted to this per-iteration event: one
`timeout` occurrence is the queue staying empty for 30 time units. -/
inductive QEvent where
  | timeout
  | msg (j : Json)
  | shutdown

/-- `sse_generator` (http_server.py lines 85-127) as a function from the
sequence of queue-wait outcomes to the sequence of yielded frames: a timeout
yields the comment frame `": keepalive\n\n"` and continues the loop; the
`None` shutdown signal breaks; a message is yielded as
`"data: " + json.dumps(message) + "\n\n"`. -/
def sse_generator : List QEvent → List String
  | [] => []
  | .timeout :: rest => ": keepalive\n\n" :: sse_generator rest
  | .shutdown :: _ => []
  | .msg j :: rest => ("data: " ++ j.dumps ++ "\n\n") :: sse_generator rest

/-- The messages the drain loop takes off the queue before the shutdown
signal, in queue (FIFO) order. -/
def queuedMsgs : List QEvent → List Json
  | [] => []
  | .timeout :: rest => queuedMsgs rest
  | .shutdown :: _ => []
  | .msg j :: rest => j :: queuedMsgs rest

/-- The frames of an emitted sequence other than the keepalive comment frame:
what remains once the keepalive path's output is discarded. -/
def dataFrames (frames : List String) : List String :=
  frames.filter (fun s => s != ": keepalive\n\n")

/-- Outcome of `asyncio.wait_for(asyncio.open_connection(host, port), timeout=3.0)`
(network_tools.py lines 52-55): the behaviour of the network, external to the
program, supplied as an oracle. -/
inductive ConnOutcome where
  | connected
  | timedOut
  | refused
  | osError
deriving DecidableEq

/-- The timeout passed to `asyncio.wait_for` in `is_port_open`
(network_tools.py line 54). -/
def is_port_open_timeout : Nat := 3

/-- `is_port_open` (network_tools.py lines 13-60). First component: whether a
connection attempt was made. A port outside 1..65535 raises `ValueError`
before any connection attempt; otherwise a successful connection yields
`{"open": true}` and timeout / refused / OS error yield `{"open": false}`
(the `except` clause) rather than raising. -/
def is_port_open (host : String) (port : Int) (net : ConnOutcome) :
    Bool × Except Exc Json :=
  if ¬ (1 ≤ port ∧ port ≤ 65535) then
    (false, .error (.valueError ("Port must be between 1 and 65535, got " ++ toString port)))
  else
    match net with
    | .connected => (true, .ok (.obj [("open", .bool true)]))
    | .timedOut => (true, .ok (.obj [("open", .bool false)]))
    | .refused => (true, .ok (.obj [("open", .bool false)]))
    | .osError => (true, .ok (.obj [("open", .bool false)]))

/-- The components of `urllib.parse.urlparse`'s result that `validate_url`
consults. `urlparse` is Python standard library, external to this repository,
so it is an oracle: it either returns components or raises
(`.error m`, e.g. "Invalid IPv6 URL"). -/
structure UrlParts where
  scheme : String
  netloc : String

/-- `' ' in url or '\t' in url or '\n' in url` (network_tools.py line 94):
membership of the character among the string's characters. -/
def containsWhitespace (url : String) : Bool :=
  url.data.contains ' ' || url.data.contains '\t' || url.data.contains '\n'

/-- `validate_url` (network_tools.py lines 63-126), parametric in the
`urlparse` oracle: whitespace is rejected first; then the parsed scheme and
netloc must be non-empty (Python truthiness of a string); any exception from
parsing is caught and reported as a `URL parsing error: ...` reason. -/
def validate_url (urlparse : String → Except String UrlParts) (url : String) : Json :=
  if containsWhitespace url then
    .obj [("valid", .bool false), ("reason", .str "URL contains whitespace characters")]
  else
    match urlparse url with
    | .error m =>
        .obj [("valid", .bool false), ("reason", .str ("URL parsing error: " ++ m))]
    | .ok p =>
        if p.scheme = "" then
          .obj [("valid", .bool false),
                ("reason", .str "Missing protocol (http:// or https://)")]
        else if p.netloc = "" then
          .obj [("valid", .bool false), ("reason", .str "Missing domain name")]
        else
          .obj [("valid", .bool true)]

/- SHA-256 (FIPS 180-4), embedding `hashlib.sha256(...).hexdigest()` as used
by `text_tools.sha256_hash`. Words are `Nat` truncated to 32 bits. -/

/-- Truncation to a 32-bit word. -/
def w32 (n : Nat) : Nat := n % 4294967296

/-- 32-bit right rotation (operand assumed < 2^32). -/
def rotr32 (x n : Nat) : Nat := w32 ((x >>> n) ||| (x <<< (32 - n)))

/-- SHA-256 Σ0. -/
def bigS0 (x : Nat) : Nat := rotr32 x 2 ^^^ rotr32 x 13 ^^^ rotr32 x 22

/-- SHA-256 Σ1. -/
def bigS1 (x : Nat) : Nat := rotr32 x 6 ^^^ rotr32 x 11 ^^^ rotr32 x 25

/-- SHA-256 σ0. -/
def smallS0 (x : Nat) : Nat := rotr32 x 7 ^^^ rotr32 x 18 ^^^ (x >>> 3)

/-- SHA-256 σ1. -/
def smallS1 (x : Nat) : Nat := rotr32 x 17 ^^^ rotr32 x 19 ^^^ (x >>> 10)

/-- SHA-256 Ch (complement taken within 32 bits). -/
def chf (x y z : Nat) : Nat := (x &&& y) ^^^ ((x ^^^ 4294967295) &&& z)

/-- SHA-256 Maj. -/
def maj (x y z : Nat) : Nat := (x &&& y) ^^^ (x &&& z) ^^^ (y &&& z)

/-- The 64 SHA-256 round constants (decimal), four per line. -/
def sha256K : List Nat :=
  [1116352408, 1899447441, 3049323471, 3921009573,
   961987163, 1508970993, 2453635748, 2870763221,
   3624381080, 310598401, 607225278, 1426881987,
   1925078388, 2162078206, 2614888103, 3248222580,
   3835390401, 4022224774, 264347078, 604807628,
   770255983, 1249150122, 1555081692, 1996064986,
   2554220882, 2821834349, 2952996808, 3210313671,
   3336571891, 3584528711, 113926993, 338241895,
   666307205, 773529912, 1294757372, 1396182291,
   1695183700, 1986661051, 2177026350, 2456956037,
   2730485921, 2820302411, 3259730800, 3345764771,
   3516065817, 3600352804, 4094571909, 275423344,
   430227734, 506948616, 659060556, 883997877,
   958139571, 1322822218, 1537002063, 1747873779,
   1955562222, 2024104815, 2227730452, 2361852424,
   2428436474, 2756734187, 3204031479, 3329325298]

/-- The SHA-256 initial hash value (decimal). -/
def sha256H0 : List Nat :=
  [1779033703, 3144134277, 1013904242, 2773480762,
   1359893119, 2600822924, 528734635, 1541459225]

/-- UTF-8 bytes of one code point (Python `str.encode('utf-8')`). -/
def utf8Char (n : Nat) : List Nat :=
  if n < 128 then [n]
  else if n < 2048 then
    [192 ||| (n >>> 6), 128 ||| (n &&& 63)]
  else if n < 65536 then
    [224 ||| (n >>> 12), 128 ||| ((n >>> 6) &&& 63), 128 ||| (n &&& 63)]
  else
    [240 ||| (n >>> 18), 128 ||| ((n >>> 12) &&& 63),
     128 ||| ((n >>> 6) &&& 63), 128 ||| (n &&& 63)]

/-- `text.encode('utf-8')` as a byte list. -/
def utf8Bytes (s : String) : List Nat :=
  (s.data.map (fun c => utf8Char c.toNat)).flatten

/-- `k` bytes of `n`, big-endian. -/
def beBytes : Nat → Nat → List Nat
  | 0, _ => []
  | k + 1, n => beBytes k (n / 256) ++ [n % 256]

/-- SHA-256 padding: a 0x80 byte, zeros to 56 mod 64, then the 64-bit
big-endian bit length. -/
def sha256Pad (msg : List Nat) : List Nat :=
  let zeros := (120 - (msg.length + 1) % 64) % 64
  msg ++ [128] ++ List.replicate zeros 0 ++ beBytes 8 (8 * msg.length)

/-- Big-endian 32-bit words from a byte list. -/
def bytesToWords : List Nat → List Nat
  | a :: b :: c :: d :: rest =>
      (((a * 256 + b) * 256 + c) * 256 + d) :: bytesToWords rest
  | _ => []

/-- Extend a 16-word block by `k` message-schedule words. -/
def extendSchedule : Nat → List Nat → List Nat
  | 0, w => w
  | k + 1, w =>
      let i := w.length
      let nw := w32 (smallS1 (w.getD (i - 2) 0) + w.getD (i - 7) 0 +
                     smallS0 (w.getD (i - 15) 0) + w.getD (i - 16) 0)
      extendSchedule k (w ++ [nw])

/-- One SHA-256 compression round on the eight working variables. -/
def roundStep (st : List Nat) (ki wi : Nat) : List Nat :=
  match st with
  | [a, b, c, d, e, f, g, hh] =>
      let t1 := w32 (hh + bigS1 e + chf e f g + ki + wi)
      let t2 := w32 (bigS0 a + maj a b c)
      [w32 (t1 + t2), a, b, c, w32 (d + t1), e, f, g]
  | other => other

/-- Fold the 64 rounds over the constants and the schedule. -/
def compressRounds : List Nat → List Nat → List Nat → List Nat
  | [], _, st => st
  | _ :: _, [], st => st
  | ki :: ks, wi :: ws, st => compressRounds ks ws (roundStep st ki wi)

/-- Process one 16-word block: compress and add into the hash value. -/
def processBlock (hv : List Nat) (block : List Nat) : List Nat :=
  let st := compressRounds sha256K (extendSchedule 48 block) hv
  List.zipWith (fun x y => w32 (x + y)) hv st

/-- Process `n` consecutive 16-word blocks. -/
def processBlocksN : Nat → List Nat → List Nat → List Nat
  | 0, hv, _ => hv
  | n + 1, hv, ws => processBlocksN n (processBlock hv (ws.take 16)) (ws.drop 16)

/-- SHA-256 digest of a byte list, as eight 32-bit words. -/
def sha256Digest (msg : List Nat) : List Nat :=
  let ws := bytesToWords (sha256Pad msg)
  processBlocksN (ws.length / 16) sha256H0 ws

/-- `k` lowercase hex digits of `n`, most significant first. -/
def toHexK : Nat → Nat → List Char
  | 0, _ => []
  | k + 1, n => toHexK k (n / 16) ++ [hexDigit (n % 16)]

/-- `hashlib.sha256(text.encode('utf-8')).hexdigest()`: the 64-character
lowercase hexadecimal digest (text_tools.py lines 71-74). -/
def sha256_hexdigest (s : String) : String :=
  String.mk ((sha256Digest (utf8Bytes s)).map (toHexK 8)).flatten

/-- `sha256_hash` (text_tools.py lines 42-76) as called by the dispatcher via
`tool_func(**arguments)`: keyword binding accepts exactly the single `text`
parameter, which must be a string (`.encode` on any other value raises; the
exact exception class and text of that corner are abstracted, no claim
touches it). On a string it returns `{"hash": <hexdigest>}`. -/
def sha256_hash (args : Json) : Except Exc Json :=
  match args with
  | .obj [("text", .str s)] => .ok (.obj [("hash", .str (sha256_hexdigest s))])
  | _ => .error (.otherError "sha256_hash: invalid arguments")

/-- A capability-behaviour oracle returning the same outcome for every tool
and argument mapping; used to instantiate universally quantified theorems at
concrete inputs. -/
def constInvoke (r : Except Exc Json) : String → Json → Except Exc Json :=
  fun _ _ => r

/-- The registry's capability behaviour for `is_port_open` under network
oracle `net`: keyword binding of the string `host` and the integer `port`,
then `network_tools.is_port_open`. Tools other than `is_port_open` are not
exercised through this oracle. -/
def portOnlyInvoke (net : ConnOutcome) : String → Json → Except Exc Json :=
  fun nm args =>
    if nm = "is_port_open" then
      match args.get? "host", args.get? "port" with
      | some (.str hst), some (.num p) => (is_port_open hst p net).2
      | _, _ => .error (.otherError "is_port_open: invalid arguments")
    else .error (.otherError "not modelled")

/-- Routing a well-formed `tools/call` body through the request surface is
`handle_call_tool` on the request params, its normal return wrapped in the
JSON-RPC success envelope and any escaping exception mapped by the endpoint's
`except Exception` handler to a -32603 error response carrying `str(e)`. -/
theorem message_endpoint_call (invoke : String → Json → Except Exc Json)
    (conns : List (List Json)) (name : String) (args idv : Json) :
    message_endpoint invoke conns (.ok (callBody name args idv))
      = match handle_call_tool invoke conns
            (.obj [("name", .str name), ("arguments", args)]) with
        | (c2, calls, .ok r) => (c2, calls, rpcResponse r idv)
        | (c2, calls, .error e) =>
            (c2, calls, create_error_response idv (-32603) e.text) := rfl

/-- `handle_call_tool` on a registered tool name: the lookup succeeds and the
outcome is determined by the capability's behaviour on the arguments. -/
theorem handle_call_tool_found (invoke : String → Json → Except Exc Json)
    (conns : List (List Json)) (name : String) (args : Json)
    (hname : name ∈ registryNames) :
    handle_call_tool invoke conns (.obj [("name", .str name), ("arguments", args)])
      = match invoke name args with
        | .ok result =>
            (conns.map (fun q => q ++ [toolResultEvent name result]), [name],
             .ok (callToolResult result))
        | .error (.valueError m) => (conns, [name], .error (.valueError m))
        | .error e =>
            (conns, [name], .error (.runtimeError ("Internal error: " ++ e.text))) := by
  have h0 : handle_call_tool invoke conns
        (.obj [("name", .str name), ("arguments", args)])
      = if name ∈ registryNames then
          (match invoke name args with
           | .ok result =>
               (conns.map (fun q => q ++ [toolResultEvent name result]), [name],
                .ok (callToolResult result))
           | .error (.valueError m) => (conns, [name], .error (.valueError m))
           | .error e =>
               (conns, [name], .error (.runtimeError ("Internal error: " ++ e.text))))
        else
          (conns, [], .error (.valueError ("Tool '" ++ name ++ "' not found"))) := rfl
  rw [h0, if_pos hname]

/-- C1: for every request handled by the POST /message request surface, an
exception raised by the invoked capability that is not a ValueError is
returned as a Failure with code -32603 and message `Internal error: <text>`
(`handle_call_tool` wraps it in `RuntimeError(f"Internal error: {e}")` and the
endpoint's `except Exception` turns that into the error response), and the
handler returns this response normally instead of propagating the
exception. -/
theorem C1_internal_error_mapping (invoke : String → Json → Except Exc Json)
    (conns : List (List Json)) (name : String) (args idv : Json) (e : Exc)
    (hname : name ∈ registryNames)
    (herr : invoke name args = .error e)
    (hnv : ∀ m, e ≠ .valueError m) :
    message_endpoint invoke conns (.ok (callBody name args idv))
      = (conns, [name],
         create_error_response idv (-32603) ("Internal error: " ++ e.text)) := by
  rw [message_endpoint_call, handle_call_tool_found invoke conns name args hname, herr]
  cases e with
  | valueError m => exact absurd rfl (hnv m)
  | runtimeError m => rfl
  | otherError m => rfl

/-- C1 witness: a registered tool whose capability raises a concrete
non-ValueError exception, evaluated through the endpoint. -/
theorem C1_witness :
    message_endpoint (constInvoke (.error (.otherError "boom"))) [[]]
        (.ok (callBody "sha256_hash" (.obj []) (.num 7)))
      = ([[]], ["sha256_hash"],
         create_error_response (.num 7) (-32603) "Internal error: boom") :=
  C1_internal_error_mapping (constInvoke (.error (.otherError "boom"))) [[]]
    "sha256_hash" (.obj []) (.num 7) (.otherError "boom")
    (by decide) rfl (fun _ h => Exc.noConfusion h)

/-- C2: the claim (and the spec) say an unregistered tool name yields a
Failure with code -32601; on the code, `handle_call_tool` raises
`ValueError("Tool '<name>' not found")` and `message_endpoint`'s only live
handler is `except Exception`, which maps every escaping exception to
-32603. Evaluating the embedded handlers at the spec's own Scenario 2 input
shows the outcome: code -32603 (message as claimed), not -32601. -/
theorem C2_unknown_tool_observed :
    message_endpoint (constInvoke (.ok .null)) []
        (.ok (callBody "missing_tool" (.obj []) (.num 1)))
      = ([], [],
         create_error_response (.num 1) (-32603) "Tool 'missing_tool' not found")
    ∧ (-32603 : Int) ≠ -32601 := ⟨rfl, by decide⟩

/-- C3: the claim (and the spec) say a capability's ValueError is returned as
a Failure with code -32602; on the code, `handle_call_tool` re-raises the
ValueError and `message_endpoint` catches it with `except Exception`, so the
response carries code -32603 (the error's text as message). Evaluated at the
claim's own example, `is_port_open` with out-of-range port 0. -/
theorem C3_validation_error_observed :
    message_endpoint (portOnlyInvoke .refused) []
        (.ok (callBody "is_port_open"
          (.obj [("host", .str "localhost"), ("port", .num 0)]) (.num 2)))
      = ([], ["is_port_open"],
         create_error_response (.num 2) (-32603)
           "Port must be between 1 and 65535, got 0")
    ∧ (-32603 : Int) ≠ -32602 := ⟨rfl, by decide⟩

/-- C5: a POST body that is not decodable as JSON is answered with a -32700
PARSE_ERROR Failure with id null, the observer queues untouched and no
capability (and no tools/list) dispatch performed. -/
theorem C5_parse_error (invoke : String → Json → Except Exc Json)
    (conns : List (List Json)) :
    message_endpoint invoke conns (.error ())
      = (conns, [], create_error_response .null (-32700) "Invalid JSON") := rfl

/-- C6: `tools/list` returns exactly one `{name, description, inputSchema}`
descriptor per registry entry, in insertion order (one map over
`AVAILABLE_TOOLS`, whose names are pairwise distinct), invokes no capability
function (empty invocation trace, response independent of the capability
behaviour `invoke`), and — the right-hand side being a closed value — any two
invocations with the registry unchanged return identical results. -/
theorem C6_list_tools (invoke : String → Json → Except Exc Json)
    (conns : List (List Json)) (idv : Json) :
    message_endpoint invoke conns
        (.ok [("jsonrpc", .str "2.0"), ("method", .str "tools/list"), ("id", idv)])
      = (conns, [],
         rpcResponse (.obj [("tools", .arr (AVAILABLE_TOOLS.map (fun t =>
             .obj [("name", .str t.name), ("description", .str t.description),
                   ("inputSchema", t.inputSchema)])))]) idv)
    ∧ (AVAILABLE_TOOLS.map (·.name)).Nodup :=
  ⟨rfl, by decide⟩

/-- C4: when a `tools/call` dispatch on the request surface completes
successfully with observer queues `conns` registered, exactly one
`tool_result` event carrying the tool name and the result value is appended
to each of those queues — the resulting state is exactly `conns` with that
one event appended per queue, so no other queue receives anything — and the
POST response wraps the same result; when the capability raises, no queue
changes at all. A queue registered only after the dispatch is not in `conns`
and thus never retroactively receives the event. -/
theorem C4_broadcast (invoke : String → Json → Except Exc Json)
    (conns : List (List Json)) (name : String) (args idv : Json)
    (hname : name ∈ registryNames) :
    (∀ r, invoke name args = .ok r →
      message_endpoint invoke conns (.ok (callBody name args idv))
        = (conns.map (fun q => q ++ [toolResultEvent name r]), [name],
           rpcResponse (callToolResult r) idv))
    ∧ (∀ e, invoke name args = .error e →
      (message_endpoint invoke conns (.ok (callBody name args idv))).1 = conns) := by
  constructor
  · intro r hr
    rw [message_endpoint_call, handle_call_tool_found invoke conns name args hname, hr]
  · intro e he
    rw [message_endpoint_call, handle_call_tool_found invoke conns name args hname, he]
    cases e <;> rfl

/-- C4 witness: a successful dispatch with two registered observer queues,
one already holding an event. -/
theorem C4_witness :
    message_endpoint (constInvoke (.ok (.str "v"))) [[], [.null]]
        (.ok (callBody "base64_encode" (.obj []) .null))
      = ([[toolResultEvent "base64_encode" (.str "v")],
          [.null, toolResultEvent "base64_encode" (.str "v")]],
         ["base64_encode"],
         rpcResponse (callToolResult (.str "v")) .null) :=
  (C4_broadcast (constInvoke (.ok (.str "v"))) [[], [.null]] "base64_encode"
      (.obj []) .null (by decide)).1 (.str "v") rfl

/-- C7: an idle interval (the queue stays empty through the 30-time-unit
wait) makes the event-stream generator yield the comment frame
`": keepalive\n\n"` and continue the drain loop; every queued message is
yielded as `"data: <json>\n\n"` (double newline terminated); and removing
the keepalive frames from the output leaves exactly the data frames of the
queued messages in queue order — the keepalive path neither discards nor
reorders a queued event. -/
theorem C7_sse_frames :
    (∀ rest, sse_generator (.timeout :: rest)
        = ": keepalive\n\n" :: sse_generator rest)
    ∧ (∀ trace, dataFrames (sse_generator trace)
        = (queuedMsgs trace).map (fun j => "data: " ++ j.dumps ++ "\n\n")) := by
  refine ⟨fun rest => rfl, fun trace => ?_⟩
  induction trace with
  | nil => rfl
  | cons ev rest ih =>
    cases ev with
    | timeout => simpa [sse_generator, queuedMsgs, dataFrames, List.filter_cons] using ih
    | shutdown => rfl
    | msg j =>
      have hne : ("data: " ++ j.dumps ++ "\n\n") ≠ ": keepalive\n\n" := by
        intro h
        have h2 := congrArg (fun s => s.data.head?) h
        simp only [String.data_append] at h2
        simp at h2
      have hb : (("data: " ++ j.dumps ++ "\n\n") != ": keepalive\n\n") = true :=
        bne_iff_ne.mpr hne
      simpa [sse_generator, queuedMsgs, dataFrames, List.filter_cons, hb] using ih

/-- C8: for any host and any port in 1..65535, `is_port_open` returns
normally with `{"open": false}` whenever the connection attempt times out,
is refused or fails with an OS error (it raises nothing); for any port
outside 1..65535 it raises `ValueError` with no connection attempt made
(first component `false`); and the connection timeout constant is 3. -/
theorem C8_port_probe (host : String) (port : Int) (net : ConnOutcome) :
    (1 ≤ port → port ≤ 65535 → net ≠ .connected →
      is_port_open host port net = (true, .ok (.obj [("open", .bool false)])))
    ∧ (¬ (1 ≤ port ∧ port ≤ 65535) →
      is_port_open host port net
        = (false, .error (.valueError
            ("Port must be between 1 and 65535, got " ++ toString port))))
    ∧ is_port_open_timeout = 3 := by
  refine ⟨fun h1 h2 hne => ?_, fun hout => ?_, rfl⟩
  · have hin : ¬ ¬ (1 ≤ port ∧ port ≤ 65535) := not_not_intro ⟨h1, h2⟩
    cases net with
    | connected => exact absurd rfl hne
    | timedOut => simp [is_port_open, hin]
    | refused => simp [is_port_open, hin]
    | osError => simp [is_port_open, hin]
  · simp [is_port_open, hout]

/-- C8 witness: a refused connection on an in-range port, and an out-of-range
port, both at concrete inputs. -/
theorem C8_witness :
    is_port_open "localhost" 80 .refused = (true, .ok (.obj [("open", .bool false)]))
    ∧ is_port_open "localhost" 70000 .refused
      = (false, .error (.valueError "Port must be between 1 and 65535, got 70000")) :=
  ⟨(C8_port_probe "localhost" 80 .refused).1 (by decide) (by decide) (by decide),
   (C8_port_probe "localhost" 70000 .refused).2.1 (by decide)⟩

/-- C9: a `tools/call` of `sha256_hash` with `{text: "hello world"}` (any
capability behaviour that agrees with the embedded `sha256_hash` on that
input) succeeds: each observer queue receives the `tool_result` event for the
hash object, and the POST response wraps the result
`{"hash": "b94d27b9934d3e08a52e52d7da7dabfac484efe37a5380ee9088f7ace2efcde9"}`,
the content text being its `json.dumps(..., indent=2)` serialization; the
digest is SHA-256 of the UTF-8 bytes of the input, 64 lowercase hex
characters. -/
theorem C9_sha256_scenario (invoke : String → Json → Except Exc Json)
    (conns : List (List Json))
    (h : invoke "sha256_hash" (.obj [("text", .str "hello world")])
          = sha256_hash (.obj [("text", .str "hello world")])) :
    message_endpoint invoke conns
        (.ok (callBody "sha256_hash" (.obj [("text", .str "hello world")]) (.num 1)))
      = (conns.map (fun q => q ++ [toolResultEvent "sha256_hash"
           (.obj [("hash",
             .str "b94d27b9934d3e08a52e52d7da7dabfac484efe37a5380ee9088f7ace2efcde9")])]),
         ["sha256_hash"],
         rpcResponse (callToolResult (.obj [("hash",
             .str "b94d27b9934d3e08a52e52d7da7dabfac484efe37a5380ee9088f7ace2efcde9")]))
           (.num 1)) := by
  have hdig : sha256_hexdigest "hello world"
      = "b94d27b9934d3e08a52e52d7da7dabfac484efe37a5380ee9088f7ace2efcde9" := by decide
  have hsha : sha256_hash (.obj [("text", .str "hello world")])
      = .ok (.obj [("hash",
          .str "b94d27b9934d3e08a52e52d7da7dabfac484efe37a5380ee9088f7ace2efcde9")]) := by
    simp [sha256_hash, hdig]
  rw [message_endpoint_call, handle_call_tool_found invoke conns _ _ (by decide), h, hsha]

/-- C9 witness: the scenario evaluated with the embedded capability itself
and one open observer queue. -/
theorem C9_witness :
    message_endpoint
        (constInvoke (sha256_hash (.obj [("text", .str "hello world")]))) [[]]
        (.ok (callBody "sha256_hash" (.obj [("text", .str "hello world")]) (.num 1)))
      = ([[toolResultEvent "sha256_hash" (.obj [("hash",
            .str "b94d27b9934d3e08a52e52d7da7dabfac484efe37a5380ee9088f7ace2efcde9")])]],
         ["sha256_hash"],
         rpcResponse (callToolResult (.obj [("hash",
            .str "b94d27b9934d3e08a52e52d7da7dabfac484efe37a5380ee9088f7ace2efcde9")]))
           (.num 1)) :=
  C9_sha256_scenario
    (constInvoke (sha256_hash (.obj [("text", .str "hello world")]))) [[]] rfl

/-- C10: `validate_url` is total (a Lean function) and for every `urlparse`
behaviour and every input string returns a dict whose `valid` member is a
boolean; whenever `valid` is false the dict also has a non-empty `reason`
string; and any input containing a space, tab or newline yields exactly
`{"valid": false, "reason": "URL contains whitespace characters"}`. -/
theorem C10_validate_url_total (urlparse : String → Except String UrlParts)
    (url : String) :
    (∃ b, (validate_url urlparse url).get? "valid" = some (.bool b))
    ∧ ((validate_url urlparse url).get? "valid" = some (.bool false) →
        ∃ r, (validate_url urlparse url).get? "reason" = some (.str r)
          ∧ r.length ≠ 0)
    ∧ (containsWhitespace url = true →
        validate_url urlparse url
          = .obj [("valid", .bool false),
                  ("reason", .str "URL contains whitespace characters")]) := by
  by_cases hw : containsWhitespace url
  · have hv : validate_url urlparse url
        = .obj [("valid", .bool false),
                ("reason", .str "URL contains whitespace characters")] := by
      simp [validate_url, hw]
    rw [hv]
    exact ⟨⟨false, rfl⟩, fun _ => ⟨_, rfl, by decide⟩, fun _ => rfl⟩
  · have hv : validate_url urlparse url
        = match urlparse url with
          | .error m =>
              .obj [("valid", .bool false),
                    ("reason", .str ("URL parsing error: " ++ m))]
          | .ok p =>
              if p.scheme = "" then
                .obj [("valid", .bool false),
                      ("reason", .str "Missing protocol (http:// or https://)")]
              else if p.netloc = "" then
                .obj [("valid", .bool false), ("reason", .str "Missing domain name")]
              else
                .obj [("valid", .bool true)] := by
      simp [validate_url, hw]
    refine ⟨?_, ?_, fun hcw => absurd hcw hw⟩
    · rw [hv]
      cases hp : urlparse url with
      | error m => exact ⟨false, rfl⟩
      | ok p =>
          by_cases hs : p.scheme = ""
          · exact ⟨false, by simp [hs, Json.get?, List.lookup]⟩
          · by_cases hn : p.netloc = ""
            · exact ⟨false, by simp [hs, hn, Json.get?, List.lookup]⟩
            · exact ⟨true, by simp [hs, hn, Json.get?, List.lookup]⟩
    · rw [hv]
      cases hp : urlparse url with
      | error m =>
          intro _
          refine ⟨"URL parsing error: " ++ m, rfl, ?_⟩
          rw [String.length_append]
          have h19 : "URL parsing error: ".length = 19 := rfl
          omega
      | ok p =>
          by_cases hs : p.scheme = ""
          · exact fun _ => ⟨"Missing protocol (http:// or https://)",
              by simp [hs, Json.get?, List.lookup], by decide⟩
          · by_cases hn : p.netloc = ""
            · exact fun _ => ⟨"Missing domain name",
                by simp [hs, hn, Json.get?, List.lookup], by decide⟩
            · intro hfalse
              simp [hs, hn, Json.get?, List.lookup] at hfalse

/-- C10 witness: a whitespace-bearing input under a concrete parse oracle. -/
theorem C10_witness :
    validate_url (fun _ => .ok ⟨"http", "x"⟩) "a b"
      = .obj [("valid", .bool false),
              ("reason", .str "URL contains whitespace characters")] :=
  (C10_validate_url_total (fun _ => .ok ⟨"http", "x"⟩) "a b").2.2 (by decide)
